import Mathlib

/-!
cmake-cpp-template: the `Lib` string utility and the `advanced_main` entry point.

Shallow embedding of `src/lib.cpp`, `include/lib.hpp` and `app/advanced_main.cpp`.

* A `std::string` is embedded as the list of its characters (`CppString`).
  Every literal of the source is ASCII, so a Lean `Char` stands for one C++ `char`.
* `Lib::helloWorldMsg` and `Lib::processData` are static member functions of a class
  without data members; their bodies are single `return` statements and they are embedded
  as Lean functions.
* `std::cout` is embedded as the sequence of characters inserted into it so far (`World`);
  `operator<<` appends, `std::endl` inserts a line terminator (its flush does not change
  the content of the stream).
* `LibE` embeds the same two bodies a second time with the way a call completes made
  explicit. The bodies hold no `throw`; the exceptions they can let through are the ones of
  the `std::string` operations they use, `std::length_error` and `std::bad_alloc`, which
  depend on limits of the implementation and of the run (`Limits`).
-/

/-- A `std::string`: a finite sequence of characters. -/
abbrev CppString := List Char

namespace Lib

/-- `std::string Lib::helloWorldMsg() { return "Hello World!\n"; }` -/
def helloWorldMsg : CppString := "Hello World!\n".toList

/-- `std::string Lib::processData(const std::string& data) { return "Processed: " + data; }` -/
def processData (data : CppString) : CppString := "Processed: ".toList ++ data

end Lib

/-- An exception leaving a C++ call. `lib.cpp` holds no `throw`; the `std::string`
operations it uses raise `std::length_error` for a string longer than `max_size()` and let
`std::bad_alloc` through when storage for the characters is not granted. -/
inductive CppException where
  | lengthError
  | badAlloc
deriving DecidableEq, Repr

/-- Limits the `std::string` operations run under; `lib.cpp` fixes neither, so both are
parameters: `maxSize` is `std::string::max_size()`, `heap` the longest character array the
allocator still grants. -/
structure Limits where
  maxSize : Nat
  heap : Nat
deriving DecidableEq, Repr

namespace Limits

/-- A string of `n` characters can be built under the limits. -/
def fits (lim : Limits) (n : Nat) : Prop := n ≤ lim.maxSize ∧ n ≤ lim.heap

instance (lim : Limits) (n : Nat) : Decidable (lim.fits n) :=
  inferInstanceAs (Decidable (n ≤ lim.maxSize ∧ n ≤ lim.heap))

/-- Construction of a `std::string` with the characters `s`: the length is checked against
`max_size()` first, then storage is requested. -/
def build (lim : Limits) (s : CppString) : Except CppException CppString :=
  if lim.maxSize < s.length then .error .lengthError
  else if lim.heap < s.length then .error .badAlloc
  else .ok s

/-- `operator+(const char* lhs, const std::string& rhs)`: a new string holding the
characters of `lhs` followed by those of `rhs`. -/
def stringConcat (lim : Limits) (lhs rhs : CppString) : Except CppException CppString :=
  lim.build (lhs ++ rhs)

end Limits

namespace LibE

/-- `std::string Lib::helloWorldMsg() { return "Hello World!\n"; }` with the completion
explicit: the returned `std::string` is built from the literal. -/
def helloWorldMsg (lim : Limits) : Except CppException CppString :=
  lim.build "Hello World!\n".toList

/-- `std::string Lib::processData(const std::string& data) { return "Processed: " + data; }`
with the completion explicit: the result of `operator+` is returned, and so is its
exception. -/
def processData (lim : Limits) (data : CppString) : Except CppException CppString :=
  lim.stringConcat "Processed: ".toList data

end LibE

/-- The character sequence written to `std::cout`. -/
structure World where
  stdout : CppString
deriving DecidableEq, Repr

namespace World

/-- The state at program start: nothing has been written yet. -/
def initial : World := ⟨[]⟩

/-- `std::cout << s` for a string or string literal `s`. -/
def put (w : World) (s : CppString) : World := ⟨w.stdout ++ s⟩

/-- `std::cout << std::endl`: inserts a line terminator and flushes. -/
def endl (w : World) : World := ⟨w.stdout ++ ['\n']⟩

end World

namespace AdvancedMain

/-- The function `int main()` of `app/advanced_main.cpp`: the exit code and the state of
`std::cout` after the run. -/
def main (w : World) : Int × World :=
  let data : CppString := "Sample Data".toList
  let processedData : CppString := Lib.processData data
  let w := ((((w.put "Calling Lib::processData(\"".toList).put data).put "\"): ".toList).put
    processedData).endl
  let w := (w.put "Calling Lib::helloWorldMsg(): ".toList).put Lib.helloWorldMsg
  (0, w)

/-- The text one run of `main` adds to `std::cout`: what stands in the stream after the run
behind what stood there before it. -/
def written (w : World) : CppString := (main w).2.stdout.drop w.stdout.length

end AdvancedMain

/-- A call of one of the two public static member functions declared in `lib.hpp`. -/
inductive LibCall where
  | helloWorldMsg
  | processData (data : CppString)
deriving DecidableEq, Repr

namespace LibCall

/-- One call executed in a program state: the returned string and the state after the call.
Neither body reads or writes anything but its argument, so the state is handed back as
it came. -/
def run (c : LibCall) (w : World) : CppString × World :=
  match c with
  | helloWorldMsg => (Lib.helloWorldMsg, w)
  | processData data => (Lib.processData data, w)

end LibCall

/-- A sequence of calls executed one after the other, each in the state its predecessor
left: the returned strings in call order and the final state. -/
def runCalls : List LibCall → World → List CppString × World
  | [], w => ([], w)
  | c :: cs, w =>
    let step := c.run w
    let rest := runCalls cs step.2
    (step.1 :: rest.1, rest.2)

/-! ## Helper lemmas -/

theorem LibCall.run_snd (c : LibCall) (w : World) : (c.run w).2 = w := by
  cases c <;> rfl

theorem runCalls_fst (cs : List LibCall) (w : World) :
    (runCalls cs w).1 = cs.map (fun c => (c.run w).1) := by
  induction cs generalizing w with
  | nil => rfl
  | cons c cs ih => simp [runCalls, ih, LibCall.run_snd]

theorem runCalls_getElem?_mid (pre post : List LibCall) (c : LibCall) (w : World) :
    (runCalls (pre ++ c :: post) w).1[pre.length]? = some (c.run w).1 := by
  rw [runCalls_fst, List.map_append, List.getElem?_append_right (by simp)]
  simp

theorem processedLiteral_length : "Processed: ".toList.length = 11 := rfl

theorem Limits.build_error_iff (lim : Limits) (s : CppString) :
    (∃ e, lim.build s = .error e) ↔ ¬ lim.fits s.length := by
  unfold Limits.build Limits.fits
  by_cases hmax : lim.maxSize < s.length
  · simp [hmax]
  · by_cases hheap : lim.heap < s.length
    · simp [hmax, hheap]
    · simp [hmax, hheap]

theorem LibE.processData_error_iff (lim : Limits) (data : CppString) :
    (∃ e, LibE.processData lim data = .error e) ↔ ¬ lim.fits (11 + data.length) := by
  rw [LibE.processData, Limits.stringConcat, Limits.build_error_iff, List.length_append,
    processedLiteral_length]

theorem main_stdout (w : World) :
    (AdvancedMain.main w).2.stdout = w.stdout ++
      "Calling Lib::processData(\"Sample Data\"): Processed: Sample Data\nCalling Lib::helloWorldMsg(): Hello World!\n".toList := by
  simp [AdvancedMain.main, World.put, World.endl, Lib.processData, Lib.helloWorldMsg]

theorem main_written (w : World) :
    AdvancedMain.written w =
      "Calling Lib::processData(\"Sample Data\"): Processed: Sample Data\nCalling Lib::helloWorldMsg(): Hello World!\n".toList := by
  rw [AdvancedMain.written, main_stdout, List.drop_left]

/-! ## Claims -/

/-- C1: for every string `s`, `Lib::processData(s)` is the literal "Processed: " (eleven
characters) followed by `s`: the characters of `s` keep their values and positions relative
to each other, and nothing comes after them. -/
theorem processData_eq_literal_append (s : CppString) :
    Lib.processData s = "Processed: ".toList ++ s ∧
    "Processed: ".toList = ['P', 'r', 'o', 'c', 'e', 's', 's', 'e', 'd', ':', ' '] ∧
    (Lib.processData s).length = 11 + s.length ∧
    ∀ i : Nat, (Lib.processData s)[11 + i]? = s[i]? := by
  refine ⟨rfl, rfl, ?_, ?_⟩
  · rw [Lib.processData, List.length_append, processedLiteral_length]
  · intro i
    rw [Lib.processData, List.getElem?_append_right (by rw [processedLiteral_length]; omega),
      processedLiteral_length, Nat.add_sub_cancel_left]

/-- C2: `Lib::helloWorldMsg()` returns exactly the thirteen characters "Hello World!\n",
the text "Hello World!" and one line terminator after it, and a call returns this string
whatever calls of `Lib` were made before it and are made after it, from any program state. -/
theorem helloWorldMsg_exact :
    Lib.helloWorldMsg = "Hello World!".toList ++ ['\n'] ∧
    Lib.helloWorldMsg =
      ['H', 'e', 'l', 'l', 'o', ' ', 'W', 'o', 'r', 'l', 'd', '!', '\n'] ∧
    Lib.helloWorldMsg.length = 13 ∧
    Lib.helloWorldMsg.count '\n' = 1 ∧
    ∀ (w : World) (pre post : List LibCall),
      (runCalls (pre ++ LibCall.helloWorldMsg :: post) w).1[pre.length]? =
        some Lib.helloWorldMsg := by
  refine ⟨rfl, rfl, rfl, by decide, ?_⟩
  intro w pre post
  rw [runCalls_getElem?_mid]
  rfl

/-- C3: a run of `main` adds to standard output exactly the line
`Calling Lib::processData("Sample Data"): Processed: Sample Data` with its terminator and
then `Calling Lib::helloWorldMsg(): Hello World!` with its terminator, in this order and
nothing else; started on an empty stream, this is the whole content of the stream. -/
theorem main_writes_expected_text (w : World) :
    (AdvancedMain.main w).2.stdout = w.stdout ++
      ("Calling Lib::processData(\"Sample Data\"): Processed: Sample Data\n".toList ++
        "Calling Lib::helloWorldMsg(): Hello World!\n".toList) ∧
    AdvancedMain.written w =
      "Calling Lib::processData(\"Sample Data\"): Processed: Sample Data\n".toList ++
        "Calling Lib::helloWorldMsg(): Hello World!\n".toList ∧
    (AdvancedMain.main World.initial).2.stdout =
      "Calling Lib::processData(\"Sample Data\"): Processed: Sample Data\n".toList ++
        "Calling Lib::helloWorldMsg(): Hello World!\n".toList := by
  refine ⟨?_, ?_, by decide⟩
  · rw [main_stdout]; rfl
  · rw [main_written]; rfl

/-- C4: the text `main` writes is two lines: it holds exactly two line terminators, ends
with one, and both lines are non-empty; the terminator of the second line is the last
character of the string `Lib::helloWorldMsg()` returns, which is the last thing written. -/
theorem main_writes_two_nonempty_lines (w : World) :
    (AdvancedMain.written w).count '\n' = 2 ∧
    (AdvancedMain.written w).getLast? = some '\n' ∧
    AdvancedMain.written w =
      "Calling Lib::processData(\"Sample Data\"): Processed: Sample Data".toList ++ '\n' ::
        ("Calling Lib::helloWorldMsg(): Hello World!".toList ++ ['\n']) ∧
    "Calling Lib::processData(\"Sample Data\"): Processed: Sample Data".toList ≠ [] ∧
    "Calling Lib::helloWorldMsg(): Hello World!".toList ≠ [] ∧
    '\n' ∉ "Calling Lib::processData(\"Sample Data\"): Processed: Sample Data".toList ∧
    '\n' ∉ "Calling Lib::helloWorldMsg(): Hello World!".toList ∧
    "Calling Lib::helloWorldMsg(): Hello World!".toList ++ ['\n'] =
      "Calling Lib::helloWorldMsg(): ".toList ++ Lib.helloWorldMsg ∧
    Lib.helloWorldMsg.getLast? = some '\n' := by
  rw [main_written]
  refine ⟨by decide, by decide, by decide, by decide, by decide, by decide, by decide,
    by decide, by decide⟩

/-- C5: `Lib::processData("")` returns exactly "Processed: ", the eleven characters of the
literal, the last of them the space. -/
theorem processData_empty :
    Lib.processData [] = "Processed: ".toList ∧
    (Lib.processData []).length = 11 ∧
    (Lib.processData []).getLast? = some ' ' := by
  refine ⟨by decide, by decide, by decide⟩

/-- C8: `main` returns exit code 0 from every program state; its body has no branch and
its only `return` statement returns 0. -/
theorem main_exit_code_zero (w : World) : (AdvancedMain.main w).1 = 0 := rfl

/-- C9: for every string `s`, the first eleven characters of `Lib::processData(s)` are
"Processed: " and what is left after removing them is `s`; this holds as well when `s`
itself begins with "Processed: ". -/
theorem processData_drop_take (s : CppString) :
    (Lib.processData s).drop 11 = s ∧
    (Lib.processData s).take 11 = "Processed: ".toList ∧
    (Lib.processData ("Processed: ".toList ++ s)).drop 11 = "Processed: ".toList ++ s ∧
    (Lib.processData (Lib.processData s)).drop 11 = Lib.processData s := by
  have hdrop : ∀ t : CppString, (Lib.processData t).drop 11 = t := by
    intro t
    rw [Lib.processData, ← processedLiteral_length, List.drop_left]
  refine ⟨hdrop s, ?_, hdrop _, hdrop _⟩
  rw [Lib.processData, ← processedLiteral_length, List.take_left]

/-- C10: `Lib::processData` is injective: equal results come from equal arguments. -/
theorem processData_injective (a b : CppString)
    (h : Lib.processData a = Lib.processData b) : a = b := by
  rw [Lib.processData, Lib.processData] at h
  exact List.append_cancel_left h

theorem processData_injective_witness :
    Lib.processData "Sample Data".toList = Lib.processData ("Sample " ++ "Data").toList ∧
    "Sample Data".toList = ("Sample " ++ "Data").toList :=
  ⟨by decide, processData_injective _ _ (by decide)⟩

/-- C11: for every string `s`, `Lib::processData(s)` has length `length(s) + 11`, is never
empty, and holds exactly as many line terminators as `s` does: the literal in front of `s`
brings none. -/
theorem processData_length_and_newlines (s : CppString) :
    (Lib.processData s).length = s.length + 11 ∧
    Lib.processData s ≠ [] ∧
    (Lib.processData s).count '\n' = s.count '\n' ∧
    "Processed: ".toList.count '\n' = 0 := by
  have hlen : (Lib.processData s).length = s.length + 11 := by
    rw [Lib.processData, List.length_append, processedLiteral_length, Nat.add_comm]
  have hlit : "Processed: ".toList.count '\n' = 0 := by decide
  refine ⟨hlen, ?_, ?_, hlit⟩
  · intro hnil
    rw [hnil] at hlen
    simp at hlen
  · rw [Lib.processData, List.count_append, hlit, Nat.zero_add]
